import Mathlib

/-!
Verification development for the xenopus MCP server (`src/server.py`).

The program is a thin command-construction and subprocess-invocation layer:

* `domain_crawl` builds an argv list for the `screamingfrogseospider`
  executable from a domain and three optional identifier lists, runs it, and
  maps the outcome to a status dictionary;
* `post_crawl_export` does the same for an existing crawl file, first
  resolving an output directory with `os.path.dirname` / `os.path.join`;
* `export_header_reference` and `database_id_list` are read-only resources.

The embedding below mirrors the Python source.  Dictionaries are modelled as
association lists of key/value pairs in insertion order (all keys written by
the source are distinct).  The subprocess boundary (`subprocess.run` with
`check=True`) is modelled by an oracle `run : List String → ProcResult`
supplied as a parameter: `ProcResult.fileNotFound` stands for the
`FileNotFoundError` raised when the executable is absent from the search
path, and `ProcResult.exited rc out err` stands for a completed process with
exit code `rc`, captured stdout `out` and captured stderr `err`; with
`check=True` a non-zero `rc` raises `CalledProcessError`.  The filesystem
listing used by `database_id_list` is likewise an oracle
`listdir : String → Option (List String)`, where `none` stands for the
`OSError` raised on a missing directory; a `none` overall result stands for
an exception propagating out of the resource function.  Logging calls are
side effects on a diagnostic channel and are not modelled.
-/

/-- Single-quote character (ASCII 39), used in the executable-not-found
message exactly as in the source. -/
def squote : String := String.mk [Char.ofNat 39]

/-- Message returned by both tools when the executable is missing
(`src/server.py` lines 74 and 143): `Error: 'screamingfrogseospider' command
not found. Ensure it is installed and in the system's PATH.` -/
def sf_not_found_message : String :=
  "Error: " ++ squote ++ "screamingfrogseospider" ++ squote ++
    " command not found. Ensure it is installed and in the system" ++ squote ++ "s PATH."

/-- Outcome of one `subprocess.run` call: the executable was not found on the
search path, or the process ran to completion with an exit code and captured
stdout/stderr. -/
inductive ProcResult where
  | fileNotFound : ProcResult
  | exited : Int → String → String → ProcResult
deriving DecidableEq

/-- Embedding of the repeated pattern
`if items: command.append(flag); command.extend(items)` from
`src/server.py` lines 50-63 and 119-132. -/
def appendSection (command : List String) (flag : String) (items : List String) :
    List String :=
  if items.isEmpty then command else command ++ flag :: items

/-- Embedding of `posixpath.dirname`: the longest prefix up to the final
slash, with trailing slashes stripped unless the prefix is all slashes. -/
def os_path_dirname (p : String) : String :=
  let l := p.toList
  let head := (l.reverse.dropWhile (fun c => c != '/')).reverse
  let head :=
    if head ≠ [] ∧ head.any (fun c => c != '/') then
      (head.reverse.dropWhile (fun c => c == '/')).reverse
    else head
  String.mk head

/-- Whether a POSIX path is absolute, i.e. starts with a slash
(`b.startswith(sep)` in `posixpath.join`). -/
def isabs (s : String) : Bool :=
  match s.toList with
  | [] => false
  | c :: _ => c == '/'

/-- Whether a string ends with a slash (`path.endswith(sep)` in
`posixpath.join`). -/
def endsWithSlash (s : String) : Bool :=
  match s.toList.reverse with
  | [] => false
  | c :: _ => c == '/'

/-- Embedding of two-argument `posixpath.join`: an absolute second operand
discards the first; otherwise the operands are concatenated, inserting a
slash unless the first is empty or already ends in one. -/
def os_path_join (a b : String) : String :=
  if isabs b then b
  else if a = "" || endsWithSlash a then a ++ b
  else a ++ "/" ++ b

/-- Output-directory resolution of `post_crawl_export`
(`src/server.py` lines 100-105):
`os.path.join(os.path.dirname(crawl_file), output_folder)`. -/
def export_output_folder (crawl_file output_folder : String) : String :=
  os_path_join (os_path_dirname crawl_file) output_folder

/-- Command built by `domain_crawl` (`src/server.py` lines 40-63).  The
protocol layer supplies `output_folder = "exports"` when the caller omits
it. -/
def domain_crawl_command (domain : String)
    (export_tabs bulk_exports reports : List String)
    (output_folder : String) : List String :=
  let command := ["screamingfrogseospider", "--crawl", domain, "--headless",
    "--output-folder", output_folder, "--export-format", "csv",
    "--timestamped-output", "--save-crawl"]
  let command := appendSection command "--export-tabs" export_tabs
  let command := appendSection command "--bulk-export" bulk_exports
  let command := appendSection command "--save-report" reports
  command

/-- Command built by `post_crawl_export` (`src/server.py` lines 100-132).
The protocol layer supplies `output_folder = "postcrawl-exports"` when the
caller omits it. -/
def post_crawl_export_command (crawl_file : String)
    (export_tabs bulk_exports reports : List String)
    (output_folder : String) : List String :=
  let folder := export_output_folder crawl_file output_folder
  let command := ["screamingfrogseospider", "--headless",
    "--output-folder", folder, "--export-format", "csv",
    "--timestamped-output", "--load-crawl", crawl_file]
  let command := appendSection command "--export-tabs" export_tabs
  let command := appendSection command "--bulk-export" bulk_exports
  let command := appendSection command "--save-report" reports
  command

/-- The `domain_crawl` tool (`src/server.py` lines 28-85): build the command,
run it through the subprocess oracle, and map the outcome to a result
dictionary.  `business_name` and `config` are accepted (Python defaults
`"default_business_name"` and `"default.seospider"`) but unused.  The
`os.makedirs` side effect has no counterpart here; logging is dropped. -/
def domain_crawl (domain : String)
    (export_tabs bulk_exports reports : List String)
    (output_folder business_name config : String)
    (run : List String → ProcResult) : List (String × String) :=
  let command := domain_crawl_command domain export_tabs bulk_exports reports output_folder
  match run command with
  | ProcResult.fileNotFound =>
      [("status", "error"), ("domain", domain), ("message", sf_not_found_message)]
  | ProcResult.exited rc _stdout stderr =>
      if rc = 0 then
        [("status", "success"), ("domain", domain), ("message", "Crawl completed.")]
      else
        [("status", "error"), ("domain", domain),
         ("message", "Error running Screaming Frog for domain " ++ domain ++
            ". Return code: " ++ toString rc),
         ("details", stderr)]

/-- The `post_crawl_export` tool (`src/server.py` lines 89-154): resolve the
output folder, build the command, run it, and map the outcome.  The
`os.makedirs(export_output_folder, exist_ok=True)` side effect is not
modelled (it creates a directory and is outside the try block). -/
def post_crawl_export (crawl_file : String)
    (export_tabs bulk_exports reports : List String)
    (output_folder : String)
    (run : List String → ProcResult) : List (String × String) :=
  let command := post_crawl_export_command crawl_file export_tabs bulk_exports reports output_folder
  match run command with
  | ProcResult.fileNotFound =>
      [("status", "error"), ("crawl_file", crawl_file), ("message", sf_not_found_message)]
  | ProcResult.exited rc _stdout stderr =>
      if rc = 0 then
        [("status", "success"), ("crawl_file", crawl_file), ("message", "Data export completed.")]
      else
        [("status", "error"), ("crawl_file", crawl_file),
         ("message", "Error exporting data from " ++ crawl_file ++
            ". Return code: " ++ toString rc),
         ("details", stderr)]

/-- The `export_header_reference` resource (`src/server.py` lines 156-163).
The three identifier lists are imported from the repository's
`export_headers` module, which is not under `src/`; since the resource only
forwards them, they are taken as parameters here. -/
def export_header_reference (export_tabs bulk_exports save_reports : List String) :
    List (String × List String) :=
  [("export-tabs", export_tabs), ("bulk-exports", bulk_exports),
   ("save-reports", save_reports)]

/-- The `database_id_list` resource (`src/server.py` lines 164-167):
`{"database-ids": os.listdir(str(Path.home()) + "/.ScreamingFrogSEOSpider/ProjectInstanceData")}`.
`home` stands for `str(Path.home())` and `listdir` for `os.listdir`, with
`none` for the `OSError` a missing directory raises; the call is not inside
any try block, so a `none` from `listdir` propagates as `none` overall. -/
def database_id_list (home : String) (listdir : String → Option (List String)) :
    Option (List (String × List String)) :=
  match listdir (home ++ "/.ScreamingFrogSEOSpider/ProjectInstanceData") with
  | none => none
  | some ids => some [("database-ids", ids)]

/-- Spec-side description of one optional command section: empty when the
identifier list is empty, otherwise the category flag followed by the list. -/
def optSection (flag : String) (items : List String) : List String :=
  if items.isEmpty then [] else flag :: items

/-- The fixed flags of the `domain_crawl` command (`src/server.py`
lines 40-48). -/
def domainFixed (domain output_folder : String) : List String :=
  ["screamingfrogseospider", "--crawl", domain, "--headless",
   "--output-folder", output_folder, "--export-format", "csv",
   "--timestamped-output", "--save-crawl"]

/-- The fixed flags of the `post_crawl_export` command (`src/server.py`
lines 110-117). -/
def postFixed (crawl_file output_folder : String) : List String :=
  ["screamingfrogseospider", "--headless",
   "--output-folder", export_output_folder crawl_file output_folder,
   "--export-format", "csv", "--timestamped-output", "--load-crawl", crawl_file]

/-- Containment of a flag immediately followed by an identifier list, as
consecutive tokens of a command. -/
def hasSection (command : List String) (flag : String) (items : List String) : Prop :=
  ∃ pre post, command = pre ++ (flag :: items) ++ post

-- Basic lemmas about the builders.

theorem appendSection_eq (command : List String) (flag : String) (items : List String) :
    appendSection command flag items = command ++ optSection flag items := by
  unfold appendSection optSection
  split <;> simp

theorem domain_crawl_command_eq (d o : String) (t b r : List String) :
    domain_crawl_command d t b r o =
      domainFixed d o ++ optSection "--export-tabs" t ++
        optSection "--bulk-export" b ++ optSection "--save-report" r := by
  simp only [domain_crawl_command, domainFixed, appendSection_eq, List.append_assoc]

theorem post_crawl_export_command_eq (cf o : String) (t b r : List String) :
    post_crawl_export_command cf t b r o =
      postFixed cf o ++ optSection "--export-tabs" t ++
        optSection "--bulk-export" b ++ optSection "--save-report" r := by
  simp only [post_crawl_export_command, postFixed, appendSection_eq, List.append_assoc]

theorem not_mem_optSection {x flag : String} {items : List String}
    (hxf : x ≠ flag) (hxl : x ∉ items) : x ∉ optSection flag items := by
  unfold optSection
  split
  · simp
  · intro hmem
    rcases List.mem_cons.mp hmem with h | h
    · exact hxf h
    · exact hxl h

theorem optSection_of_ne_nil {items : List String} (flag : String) (h : items ≠ []) :
    optSection flag items = flag :: items := by
  unfold optSection
  simp [h]

theorem optSection_nil (flag : String) : optSection flag [] = [] := rfl

-- Claim theorems.

/-- C1 (counterexample): as universally quantified over caller inputs, the
absence half of the claim is false: with `export_tabs = []` but a
caller-supplied bulk-export identifier equal to the string
`"--export-tabs"`, the built command does contain the token
`"--export-tabs"` even though the export-tabs list is empty. -/
theorem c1_empty_list_flag_present_counterexample :
    "--export-tabs" ∈ domain_crawl_command "d" [] ["--export-tabs"] [] "exports" := by
  decide

/-- C1 (amended): for each of the three identifier lists passed to
`domain_crawl` or `post_crawl_export`, if the list is non-empty the built
command contains the category flag immediately followed by exactly the
elements of that list as consecutive tokens in caller-supplied order; if the
list is empty, the category flag is absent from the command provided no
other caller-supplied value (domain / crawl file / resolved output folder /
identifier in another list) equals that flag string. -/
theorem c1_category_flag_sections (d cf o : String) (t b r : List String) :
    ((t ≠ [] → hasSection (domain_crawl_command d t b r o) "--export-tabs" t) ∧
     (b ≠ [] → hasSection (domain_crawl_command d t b r o) "--bulk-export" b) ∧
     (r ≠ [] → hasSection (domain_crawl_command d t b r o) "--save-report" r) ∧
     (t = [] → "--export-tabs" ≠ d → "--export-tabs" ≠ o →
        "--export-tabs" ∉ b → "--export-tabs" ∉ r →
        "--export-tabs" ∉ domain_crawl_command d t b r o) ∧
     (b = [] → "--bulk-export" ≠ d → "--bulk-export" ≠ o →
        "--bulk-export" ∉ t → "--bulk-export" ∉ r →
        "--bulk-export" ∉ domain_crawl_command d t b r o) ∧
     (r = [] → "--save-report" ≠ d → "--save-report" ≠ o →
        "--save-report" ∉ t → "--save-report" ∉ b →
        "--save-report" ∉ domain_crawl_command d t b r o)) ∧
    ((t ≠ [] → hasSection (post_crawl_export_command cf t b r o) "--export-tabs" t) ∧
     (b ≠ [] → hasSection (post_crawl_export_command cf t b r o) "--bulk-export" b) ∧
     (r ≠ [] → hasSection (post_crawl_export_command cf t b r o) "--save-report" r) ∧
     (t = [] → "--export-tabs" ≠ cf → "--export-tabs" ≠ export_output_folder cf o →
        "--export-tabs" ∉ b → "--export-tabs" ∉ r →
        "--export-tabs" ∉ post_crawl_export_command cf t b r o) ∧
     (b = [] → "--bulk-export" ≠ cf → "--bulk-export" ≠ export_output_folder cf o →
        "--bulk-export" ∉ t → "--bulk-export" ∉ r →
        "--bulk-export" ∉ post_crawl_export_command cf t b r o) ∧
     (r = [] → "--save-report" ≠ cf → "--save-report" ≠ export_output_folder cf o →
        "--save-report" ∉ t → "--save-report" ∉ b →
        "--save-report" ∉ post_crawl_export_command cf t b r o)) := by
  constructor
  · refine ⟨fun ht => ?_, fun hb => ?_, fun hr => ?_,
      fun ht h1 h2 h3 h4 => ?_, fun hb h1 h2 h3 h4 => ?_, fun hr h1 h2 h3 h4 => ?_⟩
    · exact ⟨domainFixed d o,
        optSection "--bulk-export" b ++ optSection "--save-report" r,
        by simp [domain_crawl_command_eq, optSection_of_ne_nil _ ht]⟩
    · exact ⟨domainFixed d o ++ optSection "--export-tabs" t,
        optSection "--save-report" r,
        by simp [domain_crawl_command_eq, optSection_of_ne_nil _ hb]⟩
    · exact ⟨domainFixed d o ++ optSection "--export-tabs" t ++
        optSection "--bulk-export" b, [],
        by simp [domain_crawl_command_eq, optSection_of_ne_nil _ hr]⟩
    · subst ht
      rw [domain_crawl_command_eq, optSection_nil]
      simp only [List.append_nil, List.mem_append, not_or]
      refine ⟨⟨?_, ?_⟩, ?_⟩
      · simp [domainFixed, h1, h2]
      · exact not_mem_optSection (by decide) h3
      · exact not_mem_optSection (by decide) h4
    · subst hb
      rw [domain_crawl_command_eq, optSection_nil]
      simp only [List.append_nil, List.mem_append, not_or]
      refine ⟨⟨?_, ?_⟩, ?_⟩
      · simp [domainFixed, h1, h2]
      · exact not_mem_optSection (by decide) h3
      · exact not_mem_optSection (by decide) h4
    · subst hr
      rw [domain_crawl_command_eq, optSection_nil]
      simp only [List.append_nil, List.mem_append, not_or]
      refine ⟨⟨?_, ?_⟩, ?_⟩
      · simp [domainFixed, h1, h2]
      · exact not_mem_optSection (by decide) h3
      · exact not_mem_optSection (by decide) h4
  · refine ⟨fun ht => ?_, fun hb => ?_, fun hr => ?_,
      fun ht h1 h2 h3 h4 => ?_, fun hb h1 h2 h3 h4 => ?_, fun hr h1 h2 h3 h4 => ?_⟩
    · exact ⟨postFixed cf o,
        optSection "--bulk-export" b ++ optSection "--save-report" r,
        by simp [post_crawl_export_command_eq, optSection_of_ne_nil _ ht]⟩
    · exact ⟨postFixed cf o ++ optSection "--export-tabs" t,
        optSection "--save-report" r,
        by simp [post_crawl_export_command_eq, optSection_of_ne_nil _ hb]⟩
    · exact ⟨postFixed cf o ++ optSection "--export-tabs" t ++
        optSection "--bulk-export" b, [],
        by simp [post_crawl_export_command_eq, optSection_of_ne_nil _ hr]⟩
    · subst ht
      rw [post_crawl_export_command_eq, optSection_nil]
      simp only [List.append_nil, List.mem_append, not_or]
      refine ⟨⟨?_, ?_⟩, ?_⟩
      · simp [postFixed, h1, h2]
      · exact not_mem_optSection (by decide) h3
      · exact not_mem_optSection (by decide) h4
    · subst hb
      rw [post_crawl_export_command_eq, optSection_nil]
      simp only [List.append_nil, List.mem_append, not_or]
      refine ⟨⟨?_, ?_⟩, ?_⟩
      · simp [postFixed, h1, h2]
      · exact not_mem_optSection (by decide) h3
      · exact not_mem_optSection (by decide) h4
    · subst hr
      rw [post_crawl_export_command_eq, optSection_nil]
      simp only [List.append_nil, List.mem_append, not_or]
      refine ⟨⟨?_, ?_⟩, ?_⟩
      · simp [postFixed, h1, h2]
      · exact not_mem_optSection (by decide) h3
      · exact not_mem_optSection (by decide) h4

/-- C1 (witness): concrete instance of the amended theorem — with
`export_tabs = ["T1", "T2"]` the domain-crawl command carries the
`--export-tabs` section, and with `bulk_exports = []` (and no colliding
values) the `--bulk-export` flag is absent. -/
theorem c1_category_flag_sections_witness :
    hasSection (domain_crawl_command "example.com" ["T1", "T2"] [] [] "exports")
      "--export-tabs" ["T1", "T2"] ∧
    "--bulk-export" ∉ domain_crawl_command "example.com" ["T1", "T2"] [] [] "exports" :=
  ⟨(c1_category_flag_sections "example.com" "cf" "exports" ["T1", "T2"] [] []).1.1
      (by decide),
   (c1_category_flag_sections "example.com" "cf" "exports" ["T1", "T2"] [] []).1.2.2.2.2.1
      rfl (by decide) (by decide) (by decide) (by decide)⟩

/-- C2: whenever the child process exits with a non-zero code, both tools
return a dictionary with status `"error"`, a `"details"` entry equal to the
captured stderr text, and a message that contains the decimal rendering of
the exit code as a substring. -/
theorem c2_nonzero_exit_error (d cf o bn cfg out err : String) (t b r : List String)
    (run : List String → ProcResult) (rc : Int) :
    (run (domain_crawl_command d t b r o) = ProcResult.exited rc out err → rc ≠ 0 →
      (domain_crawl d t b r o bn cfg run).lookup "status" = some "error" ∧
      (domain_crawl d t b r o bn cfg run).lookup "details" = some err ∧
      ∃ pre post, (domain_crawl d t b r o bn cfg run).lookup "message" =
        some (pre ++ toString rc ++ post)) ∧
    (run (post_crawl_export_command cf t b r o) = ProcResult.exited rc out err → rc ≠ 0 →
      (post_crawl_export cf t b r o run).lookup "status" = some "error" ∧
      (post_crawl_export cf t b r o run).lookup "details" = some err ∧
      ∃ pre post, (post_crawl_export cf t b r o run).lookup "message" =
        some (pre ++ toString rc ++ post)) := by
  constructor
  · intro h hrc
    simp only [domain_crawl, h, if_neg hrc]
    refine ⟨rfl, rfl,
      ⟨"Error running Screaming Frog for domain " ++ d ++ ". Return code: ", "", ?_⟩⟩
    rw [String.append_empty]
    rfl
  · intro h hrc
    simp only [post_crawl_export, h, if_neg hrc]
    refine ⟨rfl, rfl,
      ⟨"Error exporting data from " ++ cf ++ ". Return code: ", "", ?_⟩⟩
    rw [String.append_empty]
    rfl

/-- C2 (witness): concrete failing run with exit code 2 and stderr
`"boom"`. -/
theorem c2_nonzero_exit_error_witness :
    (domain_crawl "example.com" [] [] [] "exports" "bn" "cfg"
        (fun _ => ProcResult.exited 2 "" "boom")).lookup "status" = some "error" ∧
    (domain_crawl "example.com" [] [] [] "exports" "bn" "cfg"
        (fun _ => ProcResult.exited 2 "" "boom")).lookup "details" = some "boom" ∧
    ∃ pre post, (domain_crawl "example.com" [] [] [] "exports" "bn" "cfg"
        (fun _ => ProcResult.exited 2 "" "boom")).lookup "message" =
      some (pre ++ toString (2 : Int) ++ post) :=
  (c2_nonzero_exit_error "example.com" "cf" "exports" "bn" "cfg" "" "boom" [] [] []
    (fun _ => ProcResult.exited 2 "" "boom") 2).1 rfl (by decide)

/-- C3: whenever the executable is not found on the search path, both tools
return a dictionary with status `"error"` whose message contains
`"not found"`; the `FileNotFoundError` is caught, so the caller always
receives a dictionary rather than a fault. -/
theorem c3_executable_not_found (d cf o bn cfg : String) (t b r : List String)
    (run : List String → ProcResult) :
    (run (domain_crawl_command d t b r o) = ProcResult.fileNotFound →
      (domain_crawl d t b r o bn cfg run).lookup "status" = some "error" ∧
      ∃ pre post, (domain_crawl d t b r o bn cfg run).lookup "message" =
        some (pre ++ "not found" ++ post)) ∧
    (run (post_crawl_export_command cf t b r o) = ProcResult.fileNotFound →
      (post_crawl_export cf t b r o run).lookup "status" = some "error" ∧
      ∃ pre post, (post_crawl_export cf t b r o run).lookup "message" =
        some (pre ++ "not found" ++ post)) := by
  constructor
  · intro h
    simp only [domain_crawl, h]
    refine ⟨rfl,
      ⟨"Error: " ++ squote ++ "screamingfrogseospider" ++ squote ++ " command ",
       ". Ensure it is installed and in the system" ++ squote ++ "s PATH.", ?_⟩⟩
    show some sf_not_found_message = _
    exact congrArg some (by decide)
  · intro h
    simp only [post_crawl_export, h]
    refine ⟨rfl,
      ⟨"Error: " ++ squote ++ "screamingfrogseospider" ++ squote ++ " command ",
       ". Ensure it is installed and in the system" ++ squote ++ "s PATH.", ?_⟩⟩
    show some sf_not_found_message = _
    exact congrArg some (by decide)

/-- C3 (witness): concrete run whose oracle reports the executable as
missing. -/
theorem c3_executable_not_found_witness :
    (post_crawl_export "/a/b/c.seospider" [] [] [] "out"
        (fun _ => ProcResult.fileNotFound)).lookup "status" = some "error" ∧
    ∃ pre post, (post_crawl_export "/a/b/c.seospider" [] [] [] "out"
        (fun _ => ProcResult.fileNotFound)).lookup "message" =
      some (pre ++ "not found" ++ post) :=
  (c3_executable_not_found "example.com" "/a/b/c.seospider" "out" "bn" "cfg" [] [] []
    (fun _ => ProcResult.fileNotFound)).2 rfl

/-- C4: whenever the child process exits with code zero, both tools return a
dictionary with status `"success"` whose identifying key (`"domain"` for
`domain_crawl`, `"crawl_file"` for `post_crawl_export`) carries the caller's
original input unmodified. -/
theorem c4_success_echoes_input (d cf o bn cfg out err : String) (t b r : List String)
    (run : List String → ProcResult) :
    (run (domain_crawl_command d t b r o) = ProcResult.exited 0 out err →
      (domain_crawl d t b r o bn cfg run).lookup "status" = some "success" ∧
      (domain_crawl d t b r o bn cfg run).lookup "domain" = some d) ∧
    (run (post_crawl_export_command cf t b r o) = ProcResult.exited 0 out err →
      (post_crawl_export cf t b r o run).lookup "status" = some "success" ∧
      (post_crawl_export cf t b r o run).lookup "crawl_file" = some cf) := by
  constructor
  · intro h
    simp only [domain_crawl, h, if_pos rfl]
    exact ⟨rfl, rfl⟩
  · intro h
    simp only [post_crawl_export, h, if_pos rfl]
    exact ⟨rfl, rfl⟩

/-- C4 (witness): concrete successful run. -/
theorem c4_success_echoes_input_witness :
    (domain_crawl "example.com" ["T"] [] [] "exports" "bn" "cfg"
        (fun _ => ProcResult.exited 0 "done" "")).lookup "status" = some "success" ∧
    (domain_crawl "example.com" ["T"] [] [] "exports" "bn" "cfg"
        (fun _ => ProcResult.exited 0 "done" "")).lookup "domain" = some "example.com" :=
  (c4_success_echoes_input "example.com" "cf" "exports" "bn" "cfg" "done" "" ["T"] [] []
    (fun _ => ProcResult.exited 0 "done" "")).1 rfl

/-- C5: the resolved output directory of `post_crawl_export` is
`os.path.join(os.path.dirname crawl_file) output_folder`; an absolute
`output_folder` discards the crawl file's directory, and the spec's two
concrete examples hold. -/
theorem c5_output_folder_resolution :
    (∀ cf o, isabs o = true → export_output_folder cf o = o) ∧
    export_output_folder "/a/b/crawl.seospider" "out" = "/a/b/out" ∧
    export_output_folder "/a/b/crawl.seospider" "/abs/out" = "/abs/out" := by
  refine ⟨fun cf o h => ?_, by decide, by decide⟩
  simp [export_output_folder, os_path_join, h]

/-- C5 (witness): the absolute-path clause applied at a concrete crawl file
and output folder. -/
theorem c5_output_folder_resolution_witness :
    export_output_folder "/data/run1/c.seospider" "/var/exports" = "/var/exports" :=
  c5_output_folder_resolution.1 "/data/run1/c.seospider" "/var/exports" (by decide)

/-- C6 (counterexample): the exactly-once half of the claim is false in full
generality: with `domain = "--crawl"` the token `"--crawl"` occurs twice in
the built command (once as the flag, once as the domain value). -/
theorem c6_crawl_flag_twice_counterexample :
    (domain_crawl_command "--crawl" [] [] [] "exports").count "--crawl" ≠ 1 := by
  decide

/-- C6 (amended): the `domain_crawl` command always contains `"--crawl"`
immediately followed by the domain value (right after the executable name),
and the token `"--crawl"` occurs exactly once provided no caller-supplied
value (domain, output folder, or identifier list element) equals the string
`"--crawl"`. -/
theorem c6_crawl_flag (d o : String) (t b r : List String) :
    (∃ post, domain_crawl_command d t b r o =
      "screamingfrogseospider" :: "--crawl" :: d :: post) ∧
    (d ≠ "--crawl" → o ≠ "--crawl" → "--crawl" ∉ t → "--crawl" ∉ b → "--crawl" ∉ r →
      (domain_crawl_command d t b r o).count "--crawl" = 1) := by
  constructor
  · exact ⟨["--headless", "--output-folder", o, "--export-format", "csv",
      "--timestamped-output", "--save-crawl"] ++ optSection "--export-tabs" t ++
      optSection "--bulk-export" b ++ optSection "--save-report" r,
      by simp [domain_crawl_command_eq, domainFixed]⟩
  · intro hd ho ht hb hr
    rw [domain_crawl_command_eq, List.count_append, List.count_append, List.count_append]
    rw [List.count_eq_zero.mpr (not_mem_optSection (by decide) ht),
      List.count_eq_zero.mpr (not_mem_optSection (by decide) hb),
      List.count_eq_zero.mpr (not_mem_optSection (by decide) hr)]
    have h0 : (domainFixed d o).count "--crawl" = 1 := by
      simp [domainFixed, List.count_cons, hd, ho,
        beq_eq_false_iff_ne.mpr (Ne.symm hd), beq_eq_false_iff_ne.mpr (Ne.symm ho)]
    rw [h0]

/-- C6 (witness): concrete command with no colliding values has the
`--crawl` flag followed by the domain and occurring exactly once. -/
theorem c6_crawl_flag_witness :
    (∃ post, domain_crawl_command "example.com" ["T"] [] [] "exports" =
      "screamingfrogseospider" :: "--crawl" :: "example.com" :: post) ∧
    (domain_crawl_command "example.com" ["T"] [] [] "exports").count "--crawl" = 1 :=
  ⟨(c6_crawl_flag "example.com" "exports" ["T"] [] []).1,
   (c6_crawl_flag "example.com" "exports" ["T"] [] []).2 (by decide) (by decide)
     (by decide) (by decide) (by decide)⟩

/-- C7: the `database_id_list` resource is unguarded — when the per-user
crawl-database directory is missing, the listing fault propagates out of the
resource (`none`) instead of being mapped to an error dictionary; when the
directory exists the listing is returned under `"database-ids"`; by
contrast, the two tool operations always return a dictionary with a
`"status"` entry. -/
theorem c7_unguarded_directory_listing :
    (∀ home listdir,
      listdir (home ++ "/.ScreamingFrogSEOSpider/ProjectInstanceData") =
          (none : Option (List String)) →
      database_id_list home listdir = none) ∧
    (∀ home listdir ids,
      listdir (home ++ "/.ScreamingFrogSEOSpider/ProjectInstanceData") = some ids →
      database_id_list home listdir = some [("database-ids", ids)]) ∧
    (∀ d t b r o bn cfg run,
      (domain_crawl d t b r o bn cfg run).lookup "status" = some "error" ∨
      (domain_crawl d t b r o bn cfg run).lookup "status" = some "success") := by
  refine ⟨fun home listdir h => ?_, fun home listdir ids h => ?_,
    fun d t b r o bn cfg run => ?_⟩
  · simp only [database_id_list, h]
  · simp only [database_id_list, h]
  · rcases hx : run (domain_crawl_command d t b r o) with _ | ⟨rc, out, err⟩
    · exact Or.inl (by simp only [domain_crawl, hx]; rfl)
    · by_cases hrc : rc = 0
      · exact Or.inr (by simp only [domain_crawl, hx, if_pos hrc]; rfl)
      · exact Or.inl (by simp only [domain_crawl, hx, if_neg hrc]; rfl)

/-- C7 (witness): a filesystem oracle on which the directory is missing
makes the resource propagate the fault. -/
theorem c7_unguarded_directory_listing_witness :
    database_id_list "/home/user" (fun _ => (none : Option (List String))) = none :=
  c7_unguarded_directory_listing.1 "/home/user" (fun _ => none) rfl

/-- C8: the `export_header_reference` resource returns the three static
identifier lists unmodified under their three keys; as a pure function of
the lists it is idempotent and side-effect-free, so repeated calls give
identical results. -/
theorem c8_reference_lists_verbatim (t b r : List String) :
    (export_header_reference t b r).lookup "export-tabs" = some t ∧
    (export_header_reference t b r).lookup "bulk-exports" = some b ∧
    (export_header_reference t b r).lookup "save-reports" = some r :=
  ⟨rfl, rfl, rfl⟩

/-- C9: two invocations of `domain_crawl` that differ only in
`business_name` and/or `config` return identical results (in particular the
same built command is run): the two parameters are accepted but have no
influence on command construction or outcome mapping. -/
theorem c9_metadata_noninterference (d o bn1 cfg1 bn2 cfg2 : String)
    (t b r : List String) (run : List String → ProcResult) :
    domain_crawl d t b r o bn1 cfg1 run = domain_crawl d t b r o bn2 cfg2 run := rfl

/-- C10 (counterexample): at the token level the fixed relative flag order
can be violated by caller data: with `bulk_exports = ["--export-tabs"]` and
an empty export-tabs list, both flag strings occur in the command but
`"--bulk-export"` occurs before `"--export-tabs"`. -/
theorem c10_flag_order_counterexample :
    "--export-tabs" ∈ domain_crawl_command "d" [] ["--export-tabs"] [] "x" ∧
    "--bulk-export" ∈ domain_crawl_command "d" [] ["--export-tabs"] [] "x" ∧
    (domain_crawl_command "d" [] ["--export-tabs"] [] "x").indexOf "--bulk-export" <
      (domain_crawl_command "d" [] ["--export-tabs"] [] "x").indexOf "--export-tabs" := by
  decide

/-- C10 (amended): in both builders the command starts with the fixed flags,
and the category flags appended for non-empty lists follow them in the fixed
relative order export-tabs, bulk-export, save-report: the sequence of
appended flags is a sublist of the part of the command after the fixed
flags.  (The token-level reading additionally requires that no
caller-supplied value equals a category flag, as the counterexample
shows.) -/
theorem c10_sections_after_fixed_in_order (d cf o : String) (t b r : List String) :
    ((domain_crawl_command d t b r o).take 10 = domainFixed d o ∧
     ((if t.isEmpty then [] else ["--export-tabs"]) ++
      (if b.isEmpty then [] else ["--bulk-export"]) ++
      (if r.isEmpty then [] else ["--save-report"])).Sublist
        ((domain_crawl_command d t b r o).drop 10)) ∧
    ((post_crawl_export_command cf t b r o).take 9 = postFixed cf o ∧
     ((if t.isEmpty then [] else ["--export-tabs"]) ++
      (if b.isEmpty then [] else ["--bulk-export"]) ++
      (if r.isEmpty then [] else ["--save-report"])).Sublist
        ((post_crawl_export_command cf t b r o).drop 9)) := by
  have hsec : ∀ (flag : String) (l : List String),
      (if l.isEmpty then [] else [flag]).Sublist (optSection flag l) := by
    intro flag l
    unfold optSection
    split
    · simp
    · exact List.singleton_sublist.mpr (List.mem_cons_self flag l)
  constructor
  · constructor
    · rw [domain_crawl_command_eq]
      simp only [List.append_assoc]
      rw [show 10 = (domainFixed d o).length from rfl, List.take_left]
    · rw [domain_crawl_command_eq]
      simp only [List.append_assoc]
      rw [show 10 = (domainFixed d o).length from rfl, List.drop_left]
      exact List.Sublist.append (hsec _ t) (List.Sublist.append (hsec _ b) (hsec _ r))
  · constructor
    · rw [post_crawl_export_command_eq]
      simp only [List.append_assoc]
      rw [show 9 = (postFixed cf o).length from rfl, List.take_left]
    · rw [post_crawl_export_command_eq]
      simp only [List.append_assoc]
      rw [show 9 = (postFixed cf o).length from rfl, List.drop_left]
      exact List.Sublist.append (hsec _ t) (List.Sublist.append (hsec _ b) (hsec _ r))
